import Mathlib

set_option maxRecDepth 8000

namespace Dmypyls

/-- Strings of the Rust source are modelled as lists of characters, so that all
string operations reduce inside the kernel. -/
abbrev Str := List Char

/-- Splits a character list at every occurrence of `sep` (the separator is dropped);
mirrors the splitting behaviour of Rust's `str::split`. -/
def splitOnChar (sep : Char) : Str → List Str
  | [] => [[]]
  | c :: rest =>
    if c = sep then [] :: splitOnChar sep rest
    else
      match splitOnChar sep rest with
      | [] => [[c]]
      | h :: t => (c :: h) :: t

/-- A filesystem path as `std::path::PathBuf` exposes it: an absolute-path flag
(`has_root`, i.e. the string begins with `/`) plus the list of normal components.
Empty segments are dropped as Rust's component iterator does; `.`/`..`
normalization is elided (no input of interest contains them). -/
structure RustPath where
  absolute : Bool
  components : List Str
deriving DecidableEq, Repr

/-- `PathBuf::from(s)` for a Unix path string. -/
def pathFromString (s : Str) : RustPath :=
  { absolute := match s with | '/' :: _ => true | _ => false
    components := (splitOnChar '/' s).filter (fun c => ¬ c.isEmpty) }

/-- `Path::strip_prefix`: succeeds iff `base`'s components (including the root
marker) are a componentwise prefix, and returns the relative remainder. -/
def stripPrefixPath (p base : RustPath) : Option RustPath :=
  if p.absolute = base.absolute ∧ base.components.isPrefixOf p.components = true then
    some { absolute := false, components := p.components.drop base.components.length }
  else none

/-- `Path::join`: an absolute right operand replaces the left operand. -/
def RustPath.join (a b : RustPath) : RustPath :=
  if b.absolute then b else { absolute := a.absolute, components := a.components ++ b.components }

/-- Extension of a bare file name: the part after the last `.`, provided that dot
is not the leading character (`.bashrc` has no extension), as in `Path::extension`. -/
def extOf (name : Str) : Option Str :=
  let rev := name.reverse
  if rev.contains '.' then
    let extRev := rev.takeWhile (fun c => c ≠ '.')
    if extRev.length + 1 = name.length then none else some extRev.reverse
  else none

/-- `Path::extension` via the last component. -/
def extension (p : RustPath) : Option Str :=
  match p.components.getLast? with
  | none => none
  | some name => extOf name

/-- An editor document identifier (`lsp_types::Url`): for this embedding, whether
it is a `file://` URI together with the carried filesystem path. -/
structure Url where
  isFile : Bool
  path : RustPath
deriving DecidableEq, Repr

/-- `Url::to_file_path`: succeeds only for file URIs. -/
def Url.toFilePath? (u : Url) : Option RustPath :=
  if u.isFile then some u.path else none

/-- The file URI denoting a given filesystem path. -/
def uriFor (p : RustPath) : Url := { isFile := true, path := p }

/-- The error values of `error.rs` / the spec's error taxonomy, one constructor per
construction site reached by the translation core:
`uriNotFilePath` = "uri is not a file path", `uriNotChild` = "uri is not a child of
root_dir" (both PathError cases of `RelPathBuf::from_uri`), `filenamePrefix` =
"filename prefix could not be stripped" (`RelPathBuf::from_filename`),
`encoding` = "from_utf8 failed for dmypy output" (EncodingError),
`noCommand` = `Error::no_command` (NoCommandConfigured), `spawn` =
"Failed to execute dmypy check" (SpawnError). -/
inductive Err where
  | uriNotFilePath
  | uriNotChild
  | filenamePrefix
  | encoding
  | noCommand
  | spawn
deriving DecidableEq, Repr

/-- `RelPathBuf` of `relpathbuf.rs`: a root directory plus a path relative to it;
equality is the derived componentwise equality of both fields. -/
structure RelPathBuf where
  root_dir : RustPath
  path_buf : RustPath
deriving DecidableEq, Repr

/-- `RelPathBuf::from_uri`: resolve the URI to a file path and strip the root
prefix, failing if the URI is not a file path or not a descendant of the root. -/
def RelPathBuf.from_uri (root_dir : RustPath) (uri : Url) : Except Err RelPathBuf :=
  match uri.toFilePath? with
  | none => .error .uriNotFilePath
  | some p =>
    match stripPrefixPath p root_dir with
    | none => .error .uriNotChild
    | some rel => .ok { root_dir := root_dir, path_buf := rel }

/-- `RelPathBuf::from_filename`: a relative daemon-reported filename is accepted
verbatim; an absolute one has the root prefix stripped, failing when the filename
is not rooted under the root directory. -/
def RelPathBuf.from_filename (root_dir : RustPath) (filename : Str) : Except Err RelPathBuf :=
  let path_buf := pathFromString filename
  if path_buf.absolute = false then
    .ok { root_dir := root_dir, path_buf := path_buf }
  else
    match stripPrefixPath path_buf root_dir with
    | none => .error .filenamePrefix
    | some rel => .ok { root_dir := root_dir, path_buf := rel }

/-- The four diagnostic severity ranks of the output protocol
(`lsp_types::DiagnosticSeverity`). -/
inductive SeverityRank where
  | error
  | warning
  | information
  | hint
deriving DecidableEq, Repr

/-- A 0-based protocol position (`lsp_types::Position`, fields are `u32`). -/
structure Position where
  line : Nat
  character : Nat
deriving DecidableEq, Repr

/-- A protocol range (`lsp_types::Range`; the Rust field `end` is named `stop`
here because `end` is a Lean keyword). -/
structure Range where
  start : Position
  stop : Position
deriving DecidableEq, Repr

/-- The fields of `lsp_types::Diagnostic` that `convert_capture_to_diagnostic`
fills with non-constant data; the remaining fields (`code`, `code_description`,
`related_information`, `tags`, `data`) are always `None` there and are elided.
The derived equality therefore coincides with the derived `PartialEq` of the Rust
type on the diagnostics this program builds. -/
structure Diagnostic where
  range : Range
  message : Str
  source : Option Str
  severity : Option SeverityRank
deriving DecidableEq, Repr

/-- Modelled from the spec: `DiagnosticSeverity::try_from(&str)` is provided by the
external protocol-types library, whose source is not part of this repository.
Spec §4.2: the severity keyword is matched case-sensitively against the protocol's
fixed four-rank vocabulary, and an unrecognized keyword yields no severity; the
spec's end-to-end scenario fixes `error` ↦ Error. -/
def severityTryFrom (s : Str) : Option SeverityRank :=
  if s = "error".data then some .error
  else if s = "warning".data then some .warning
  else if s = "information".data then some .information
  else if s = "hint".data then some .hint
  else none

/-- `\d` of the diagnostic pattern (ASCII decimal digits; the Unicode digit
classes admitted by the regex engine always fail the subsequent `u32` parse and
are elided). -/
def isDigitChar (c : Char) : Bool := c.isDigit

/-- `\w` of the diagnostic pattern (ASCII approximation: letters, digits, `_`). -/
def isWordChar (c : Char) : Bool := c.isAlphanum || c = '_'

/-- Numeric value of a digit string. -/
def digitsToNat (ds : Str) : Nat :=
  ds.foldl (fun a c => a * 10 + (c.toNat - '0'.toNat)) 0

/-- Consumes one expected literal character. -/
def expectChar (c : Char) : Str → Option Str
  | [] => none
  | x :: rest => if x = c then some rest else none

/-- Greedy `(\d+)`: the maximal nonempty digit prefix, as a string.  (Maximal
munch is exact here: backtracking a greedy `\d+` would leave a digit where the
following literal `:` is required.) -/
def parseNumStr (cs : Str) : Option (Str × Str) :=
  let ds := cs.takeWhile isDigitChar
  if ds.isEmpty then none else some (ds, cs.dropWhile isDigitChar)

/-- Greedy `(\w+)`: the maximal nonempty word-character prefix.  (Maximal munch is
exact: the following literal `:` is not a word character.) -/
def parseWord (cs : Str) : Option (Str × Str) :=
  let ws := cs.takeWhile isWordChar
  if ws.isEmpty then none else some (ws, cs.dropWhile isWordChar)

/-- The capture groups of `MYPY_ERROR_REGEX`
`(.*):(\d+):(\d+):(\d+):(\d+): (\w+): (.*)` — position groups are kept as the
captured strings, exactly as `regex::Captures` exposes them. -/
structure Caps where
  filename : Str
  startLine : Str
  startCol : Str
  endLine : Str
  endCol : Str
  severity : Str
  message : Str
deriving DecidableEq, Repr

/-- Matches the part of `MYPY_ERROR_REGEX` after the first capture group:
`:(\d+):(\d+):(\d+):(\d+): (\w+): (.*)`.  The final greedy `(.*)` takes the whole
remainder of the line (lines contain no newline). -/
def parseTail (cs : Str) : Option (Str × Str × Str × Str × Str × Str) := do
  let cs1 ← expectChar ':' cs
  let (n1, cs2) ← parseNumStr cs1
  let cs3 ← expectChar ':' cs2
  let (n2, cs4) ← parseNumStr cs3
  let cs5 ← expectChar ':' cs4
  let (n3, cs6) ← parseNumStr cs5
  let cs7 ← expectChar ':' cs6
  let (n4, cs8) ← parseNumStr cs7
  let cs9 ← expectChar ':' cs8
  let cs10 ← expectChar ' ' cs9
  let (w, cs11) ← parseWord cs10
  let cs12 ← expectChar ':' cs11
  let cs13 ← expectChar ' ' cs12
  some (n1, n2, n3, n4, w, cs13)

/-- `Regex::captures` for `MYPY_ERROR_REGEX` on one line.  The leading greedy
`(.*)` makes any match start at the beginning of the line and prefer the longest
filename prefix, so the engine's leftmost-first semantics amount to trying split
points for group 1 from the right and taking the first that lets the rest of the
pattern match. -/
def regexCaptures (s : Str) : Option Caps :=
  (List.range (s.length + 1)).reverse.findSome? fun i =>
    (parseTail (s.drop i)).map fun r =>
      { filename := s.take i, startLine := r.1, startCol := r.2.1, endLine := r.2.2.1
        endCol := r.2.2.2.1, severity := r.2.2.2.2.1, message := r.2.2.2.2.2 }

/-- `str::parse::<u32>` on a regex digit group: succeeds iff the digits denote a
value below `2^32` (the group is nonempty and all digits by construction; sign
prefixes, which the regex can never capture, are elided). -/
def parseU32Str (s : Str) : Option Nat :=
  if s ≠ [] ∧ s.all isDigitChar = true ∧ digitsToNat s < 4294967296 then
    some (digitsToNat s)
  else none

/-- `convert_capture_to_diagnostic` of `main.rs`: reconcile the captured filename
against the root, drop the diagnostic unless it names the target document, parse
the four positions as `u32` (any failure drops the line), and build the protocol
diagnostic, converting the daemon's 1-based coordinates to 0-based ones with
saturating subtraction.  The source parses the four positions one after another
with early exit; the simultaneous match below is observably identical. -/
def convert_capture_to_diagnostic (root_dir : RustPath) (target_filename : RelPathBuf)
    (caps : Caps) : Option Diagnostic :=
  match RelPathBuf.from_filename root_dir caps.filename with
  | .error _ => none
  | .ok filename =>
    if target_filename ≠ filename then none
    else
      match parseU32Str caps.startLine, parseU32Str caps.startCol,
            parseU32Str caps.endLine, parseU32Str caps.endCol with
      | some start_line, some start_column, some end_line, some end_column =>
        some { range := { start := { line := start_line - 1, character := start_column - 1 }
                          stop := { line := end_line - 1, character := end_column - 1 } }
               message := caps.message
               source := some "dmypy".data
               severity := severityTryFrom caps.severity }
      | _, _, _, _ => none

/-- One line through the regex and the capture conversion: the body of the
`filter_map` in `parse_diagnostics`. -/
def lineToDiag (root_dir : RustPath) (target_filename : RelPathBuf) (line : Str) :
    Option Diagnostic :=
  (regexCaptures line).bind (convert_capture_to_diagnostic root_dir target_filename)

/-- Drops one trailing carriage return (`\r`) from a line. -/
def rstripCr (l : Str) : Str :=
  if l.getLast? = some '\r' then l.dropLast else l

/-- `str::lines`: split at `\n`; segments that ended in `\n` lose an additional
trailing `\r`; a final empty segment (trailing newline or empty input) yields no
line, while a final nonempty segment is kept verbatim. -/
def strLines (s : Str) : List Str :=
  let ps := splitOnChar '\n' s
  let lastPart := ps.getLast?.getD []
  ps.dropLast.map rstripCr ++ (if lastPart.isEmpty then [] else [lastPart])

/-- Is `b` a UTF-8 continuation byte? -/
def isContByte (b : Nat) : Bool := 0x80 ≤ b && b < 0xC0

/-- `std::str::from_utf8`: strict UTF-8 validation and decoding of a byte
sequence into characters (rejecting overlong forms, surrogates, and
out-of-range code points), `none` on invalid input. -/
def utf8Decode? : List Nat → Option Str
  | [] => some []
  | b :: bs =>
    if b < 0x80 then
      (utf8Decode? bs).map (fun r => Char.ofNat b :: r)
    else if 0xC2 ≤ b ∧ b < 0xE0 then
      match bs with
      | c1 :: bs' =>
        if isContByte c1 then
          (utf8Decode? bs').map (fun r => Char.ofNat ((b - 0xC0) * 64 + (c1 - 0x80)) :: r)
        else none
      | [] => none
    else if 0xE0 ≤ b ∧ b < 0xF0 then
      match bs with
      | c1 :: c2 :: bs' =>
        if isContByte c1 && isContByte c2 then
          let cp := (b - 0xE0) * 4096 + (c1 - 0x80) * 64 + (c2 - 0x80)
          if 0x800 ≤ cp ∧ ¬ (0xD800 ≤ cp ∧ cp ≤ 0xDFFF) then
            (utf8Decode? bs').map (fun r => Char.ofNat cp :: r)
          else none
        else none
      | _ => none
    else if 0xF0 ≤ b ∧ b < 0xF5 then
      match bs with
      | c1 :: c2 :: c3 :: bs' =>
        if isContByte c1 && isContByte c2 && isContByte c3 then
          let cp := (b - 0xF0) * 262144 + (c1 - 0x80) * 4096 + (c2 - 0x80) * 64 + (c3 - 0x80)
          if 0x10000 ≤ cp ∧ cp < 0x110000 then
            (utf8Decode? bs').map (fun r => Char.ofNat cp :: r)
          else none
        else none
      | _ => none
    else none

/-- UTF-8 encoding of one character. -/
def utf8EncodeChar (c : Char) : List Nat :=
  let n := c.toNat
  if n < 0x80 then [n]
  else if n < 0x800 then [0xC0 + n / 64, 0x80 + n % 64]
  else if n < 0x10000 then [0xE0 + n / 4096, 0x80 + (n / 64) % 64, 0x80 + n % 64]
  else [0xF0 + n / 262144, 0x80 + (n / 4096) % 64, 0x80 + (n / 64) % 64, 0x80 + n % 64]

/-- UTF-8 encoding of a character list (how daemon text arrives as bytes). -/
def utf8Encode (s : Str) : List Nat :=
  (s.map utf8EncodeChar).flatten

/-- One insertion into the deduplicating collection (`HashSet::insert` keyed by
the diagnostic's equality): already-present records are dropped. -/
def insertDedup (acc : List Diagnostic) (d : Diagnostic) : List Diagnostic :=
  if d ∈ acc then acc else acc ++ [d]

/-- Collecting into `HashSet<MypyLsDiagnostic>` and back out: deduplication by
diagnostic equality.  (The Rust set iterates in unspecified order; this embedding
fixes first-insertion order, which is irrelevant to the set-level properties
proved below.) -/
def collectSet (l : List Diagnostic) : List Diagnostic :=
  l.foldl insertDedup []

/-- The text-level part of `parse_diagnostics`: split the decoded output into
lines, run the regex and conversion on each, and deduplicate. -/
def parse_diagnostics_text (root_dir : RustPath) (target_filename : RelPathBuf)
    (text : Str) : List Diagnostic :=
  collectSet ((strLines text).filterMap (lineToDiag root_dir target_filename))

/-- `parse_diagnostics` of `main.rs`: decode the raw daemon output as UTF-8 text
(EncodingError on failure), then parse, filter and deduplicate line by line. -/
def parse_diagnostics (root_dir : RustPath) (target_filename : RelPathBuf)
    (output : List Nat) : Except Err (List Diagnostic) :=
  match utf8Decode? output with
  | none => .error .encoding
  | some text => .ok (parse_diagnostics_text root_dir target_filename text)

/-- The configuration as the session controller consumes it: the daemon command
template (ordered token list). -/
structure DmypylsConfig where
  command_tokens : List Str
deriving DecidableEq, Repr

/-- Modelled from the spec: `DmypylsConfig::command` is called throughout
`main.rs` but its definition is not among the files under `src/`.  Spec §4.4:
command construction fails fast with a `NoCommandConfigured` error if the
configured template is empty, and is checked at every invocation site. -/
def DmypylsConfig.command (cfg : DmypylsConfig) : Except Err (List Str) :=
  if cfg.command_tokens = [] then .error .noCommand else .ok cfg.command_tokens

/-- Outcome of one child-process invocation (`std::process::Output`): exit
success flag and raw stdout bytes. -/
structure ProcOutput where
  success : Bool
  stdout : List Nat
deriving DecidableEq, Repr

/-- The fixed liveness banner of `dmypy_is_running`. -/
def bannerData : Str := "Daemon is up and running".data

/-- `dmypy_is_running` of `main.rs`.  `spawnResult` is the outcome of
`cmd.output()` (`none` = the probe process could not be launched).  The outer
`Option` models panics: the source decodes the probe's stdout with
`std::str::from_utf8(..).unwrap()`, which panics (`none`) on invalid UTF-8;
otherwise the probe returns `true` iff the stdout text starts with the banner,
with spawn failure mapped to `false` by `map_or`, and only a missing command
template surfaces as an error. -/
def dmypy_is_running (cfg : DmypylsConfig) (spawnResult : Option ProcOutput) :
    Option (Except Err Bool) :=
  match cfg.command with
  | .error e => some (.error e)
  | .ok _ =>
    match spawnResult with
    | none => some (.ok false)
    | some out =>
      match utf8Decode? out.stdout with
      | none => none
      | some text => some (.ok (bannerData.isPrefixOf text))

/-- The process-wide document version table `versions: HashMap<Url, i32>`,
modelled as an association list with at most one entry per key.  (The `Mutex`
around it serializes accesses; each critical section below is a pure map
operation.) -/
abbrev VMap := List (Url × Int)

/-- `versions.insert(uri, version)`: unconditional overwrite. -/
def record (m : VMap) (doc : Url) (v : Int) : VMap :=
  (doc, v) :: m.filter (fun p => ¬ p.1 = doc)

/-- `versions.get(&uri).cloned().unwrap_or(0)`: last recorded version, default 0. -/
def latest (m : VMap) (doc : Url) : Int :=
  (m.lookup doc).getD 0

/-- A `publish_diagnostics` protocol event. -/
structure Publish where
  uri : Url
  diagnostics : List Diagnostic
  version : Int
deriving DecidableEq, Repr

/-- `Backend::check_file` of `main.rs`.  `spawnResult` is the outcome of the
blocking `dmypy check` invocation (`.error ()` = spawn failure, `.ok bytes` = the
raw stdout, returned regardless of the child's exit status).  The outer `Option`
models panics: after the check subprocess returns, and before `parse_diagnostics`
is called, the source logs the raw output with
`log::info!(.., std::str::from_utf8(&output.stdout).unwrap())`; the log level
defaults to Info (`DEFAULT_LOG_LEVEL`), so the format argument is evaluated and
the `unwrap` panics (`none`) on invalid UTF-8.  Otherwise the result is the
`publish_diagnostics` event, if any, together with the function's `Result`:
URI reconciliation failures propagate, non-`py` documents are silently skipped,
a missing command template and spawn failures fail the check, and parse errors
would propagate (though `parse_diagnostics`'s EncodingError branch is shielded by
the preceding unwrap); only a fully parsed output is published, tagged with the
version passed in. -/
def check_file (root_dir : RustPath) (cfg : DmypylsConfig) (uri : Url) (version : Int)
    (spawnResult : Except Unit (List Nat)) : Option (Option Publish × Except Err Unit) :=
  match RelPathBuf.from_uri root_dir uri with
  | .error e => some (none, .error e)
  | .ok file_path =>
    if (extension file_path.path_buf).getD [] ≠ "py".data then some (none, .ok ())
    else
      match cfg.command with
      | .error e => some (none, .error e)
      | .ok _ =>
        match spawnResult with
        | .error _ => some (none, .error .spawn)
        | .ok bytes =>
          match utf8Decode? bytes with
          | none => none
          | some _ =>
            match parse_diagnostics root_dir file_path bytes with
            | .error e => some (none, .error e)
            | .ok diagnostics =>
              some (some { uri := uri, diagnostics := diagnostics, version := version }, .ok ())

/-- `Backend::did_save`: read the last-known version for the document (default 0)
and run the check; the check's `Result` is swallowed by `ok_or_log` (logged, the
session keeps running), but a panic inside `check_file` propagates (outer
`none`).  The observable outcome of a completed handler is the optional
publication. -/
def did_save (root_dir : RustPath) (cfg : DmypylsConfig) (versions : VMap) (uri : Url)
    (spawnResult : Except Unit (List Nat)) : Option (Option Publish) :=
  (check_file root_dir cfg uri (latest versions uri) spawnResult).map Prod.fst

/-- Observable steps of a save-triggered check, for stating ordering properties:
reading the version table, the blocking daemon check call, and the publication
(with its version tag). -/
inductive Ev where
  | readVersion (v : Int)
  | daemonCheck
  | publish (v : Int)
deriving DecidableEq, Repr

/-- The steps `Backend::check_file` performs, in source order: the daemon check
call happens (if the document survives the `py` filter and a command template
exists), and a publication tagged with the version argument follows a fully
parsed output. -/
def checkFileEvents (root_dir : RustPath) (cfg : DmypylsConfig) (uri : Url) (version : Int)
    (spawnResult : Except Unit (List Nat)) : List Ev :=
  match RelPathBuf.from_uri root_dir uri with
  | .error _ => []
  | .ok file_path =>
    if (extension file_path.path_buf).getD [] ≠ "py".data then []
    else
      match cfg.command with
      | .error _ => []
      | .ok _ =>
        match spawnResult with
        | .error _ => [.daemonCheck]
        | .ok bytes =>
          match parse_diagnostics root_dir file_path bytes with
          | .error _ => [.daemonCheck]
          | .ok _ => [.daemonCheck, .publish version]

/-- The steps `Backend::did_save` performs, in source order: it reads the version
from the table first, then calls `check_file` with that version. -/
def didSaveEvents (root_dir : RustPath) (cfg : DmypylsConfig) (versions : VMap) (uri : Url)
    (spawnResult : Except Unit (List Nat)) : List Ev :=
  .readVersion (latest versions uri) ::
    checkFileEvents root_dir cfg uri (latest versions uri) spawnResult

/-- The ordering claimed by the spec for save-triggered checks: whenever a
publication happens, the version it is tagged with was read from the table after
the daemon check call completed, immediately before publishing. -/
def readAfterCheckBeforePublish (evs : List Ev) : Prop :=
  ∀ k v, evs.get? k = some (.publish v) →
    ∃ i j, evs.get? i = some .daemonCheck ∧ evs.get? j = some (.readVersion v) ∧
      i < j ∧ j + 1 = k

theorem insertDedup_nodup {acc : List Diagnostic} {d : Diagnostic} (h : acc.Nodup) :
    (insertDedup acc d).Nodup := by
  unfold insertDedup
  split
  · exact h
  · next hmem =>
      refine List.nodup_append.2 ⟨h, List.nodup_singleton d, ?_⟩
      intro x hx hx'
      rw [List.mem_singleton] at hx'
      subst hx'
      exact hmem hx

theorem foldl_insertDedup_nodup : ∀ (l acc : List Diagnostic), acc.Nodup →
    (l.foldl insertDedup acc).Nodup
  | [], _, h => h
  | d :: l, acc, h => foldl_insertDedup_nodup l (insertDedup acc d) (insertDedup_nodup h)

theorem mem_insertDedup {acc : List Diagnostic} {d x : Diagnostic} :
    x ∈ insertDedup acc d ↔ x ∈ acc ∨ x = d := by
  unfold insertDedup
  split
  · next hmem =>
      constructor
      · exact Or.inl
      · rintro (h | rfl)
        · exact h
        · exact hmem
  · simp [List.mem_append]

theorem mem_foldl_insertDedup : ∀ (l acc : List Diagnostic) (x : Diagnostic),
    x ∈ l.foldl insertDedup acc ↔ x ∈ acc ∨ x ∈ l
  | [], acc, x => by simp
  | d :: l, acc, x => by
    rw [List.foldl_cons, mem_foldl_insertDedup l (insertDedup acc d) x, mem_insertDedup]
    simp [List.mem_cons]
    tauto

theorem collectSet_nodup (l : List Diagnostic) : (collectSet l).Nodup :=
  foldl_insertDedup_nodup l [] List.nodup_nil

theorem mem_collectSet {l : List Diagnostic} {x : Diagnostic} : x ∈ collectSet l ↔ x ∈ l := by
  unfold collectSet
  rw [mem_foldl_insertDedup]
  simp

/-- C1: with root directory `/root` and target document `pkg/mod.py`, running the
check-output translation on daemon output consisting of the single line
`/root/pkg/mod.py:10:3:10:15: error: Argument 1 has incompatible type` yields
exactly one diagnostic, with range start (9,2), end (9,14), severity Error and
message "Argument 1 has incompatible type". -/
theorem C1_end_to_end_single_line :
    parse_diagnostics (pathFromString "/root".data)
      { root_dir := pathFromString "/root".data, path_buf := pathFromString "pkg/mod.py".data }
      (utf8Encode "/root/pkg/mod.py:10:3:10:15: error: Argument 1 has incompatible type".data)
    = .ok [{ range := { start := { line := 9, character := 2 }
                        stop := { line := 9, character := 14 } }
             message := "Argument 1 has incompatible type".data
             source := some "dmypy".data
             severity := some .error }] := by
  rfl

/-- C2: the emitted diagnostic collection never contains two equal records (daemon
lines with identical structured output collapse), every successfully parsed line's
record does appear, and in particular an output containing the line
`file.py:3:1:3:10: error: Incompatible type` twice produces exactly one
diagnostic. -/
theorem C2_dedup_collapses_identical_records :
    (∀ root target text, (parse_diagnostics_text root target text).Nodup) ∧
    (∀ root target text line d, line ∈ strLines text →
        lineToDiag root target line = some d →
        d ∈ parse_diagnostics_text root target text) ∧
    parse_diagnostics_text (pathFromString "/r".data)
      { root_dir := pathFromString "/r".data, path_buf := pathFromString "file.py".data }
      ("file.py:3:1:3:10: error: Incompatible type\nfile.py:3:1:3:10: error: Incompatible type".data)
    = [{ range := { start := { line := 2, character := 0 }
                    stop := { line := 2, character := 9 } }
         message := "Incompatible type".data
         source := some "dmypy".data
         severity := some .error }] := by
  refine ⟨?_, ?_, by rfl⟩
  · intro root target text
    exact collectSet_nodup _
  · intro root target text line d hline hd
    exact mem_collectSet.2 (List.mem_filterMap.2 ⟨line, hline, hd⟩)

/-- C2 witness: the duplicated `file.py:3:1:3:10: error: Incompatible type` line's
record is in the emitted collection (exactly once, by the Nodup conjunct). -/
theorem C2_dedup_collapses_identical_records_witness :
    { range := { start := { line := 2, character := 0 }
                 stop := { line := 2, character := 9 } }
      message := "Incompatible type".data
      source := some "dmypy".data
      severity := some SeverityRank.error : Diagnostic }
    ∈ parse_diagnostics_text (pathFromString "/r".data)
        { root_dir := pathFromString "/r".data, path_buf := pathFromString "file.py".data }
        ("file.py:3:1:3:10: error: Incompatible type\nfile.py:3:1:3:10: error: Incompatible type".data) :=
  C2_dedup_collapses_identical_records.2.1 _ _ _
    ("file.py:3:1:3:10: error: Incompatible type".data) _ (by decide) (by rfl)

/-- C3: any parsed daemon line whose reconciled filename does not equal the target
document's root-relative identity yields no diagnostic, and concretely, with
target `a.py`, output containing one line for `a.py` and one for `b.py` yields
only the `a.py` diagnostic. -/
theorem C3_cross_file_suppression :
    (∀ root target line caps, regexCaptures line = some caps →
      (RelPathBuf.from_filename root caps.filename).toOption ≠ some target →
      lineToDiag root target line = none) ∧
    parse_diagnostics_text (pathFromString "/r".data)
      { root_dir := pathFromString "/r".data, path_buf := pathFromString "a.py".data }
      ("a.py:1:1:1:2: error: X\nb.py:1:1:1:2: error: Y".data)
    = [{ range := { start := { line := 0, character := 0 }
                    stop := { line := 0, character := 1 } }
         message := "X".data
         source := some "dmypy".data
         severity := some .error }] := by
  refine ⟨?_, by rfl⟩
  intro root target line caps hc hne
  unfold lineToDiag
  rw [hc]
  show convert_capture_to_diagnostic root target caps = none
  unfold convert_capture_to_diagnostic
  cases hf : RelPathBuf.from_filename root caps.filename with
  | error e => rfl
  | ok f =>
    rw [hf] at hne
    have hnef : target ≠ f := fun h => hne (by simp [Except.toOption, h])
    simp [hnef]

/-- C3 witness: with target `a.py`, the `b.py` line is dropped. -/
theorem C3_cross_file_suppression_witness :
    lineToDiag (pathFromString "/r".data)
      { root_dir := pathFromString "/r".data, path_buf := pathFromString "a.py".data }
      ("b.py:1:1:1:2: error: Y".data) = none :=
  C3_cross_file_suppression.1 _ _ _
    { filename := "b.py".data, startLine := "1".data, startCol := "1".data
      endLine := "1".data, endCol := "2".data, severity := "error".data, message := "Y".data }
    (by decide) (by decide)

theorem parseU32Str_digits {s : Str} {v : Nat} (h : parseU32Str s = some v) :
    v = digitsToNat s := by
  unfold parseU32Str at h
  split at h
  · exact (Option.some.inj h).symm
  · cases h

/-- C4: for every line the parser accepts and converts, the 1-based wire positions
become 0-based output positions by saturating subtraction (over `Nat`, which can
never underflow); in particular a reported start line or start column of 0 or 1
both map to output 0. -/
theorem C4_saturating_position_conversion :
    ∀ root target line caps d,
      regexCaptures line = some caps →
      convert_capture_to_diagnostic root target caps = some d →
      d.range = { start := { line := digitsToNat caps.startLine - 1
                             character := digitsToNat caps.startCol - 1 }
                  stop := { line := digitsToNat caps.endLine - 1
                            character := digitsToNat caps.endCol - 1 } } ∧
      (digitsToNat caps.startLine ≤ 1 → d.range.start.line = 0) ∧
      (digitsToNat caps.startCol ≤ 1 → d.range.start.character = 0) := by
  intro root target line caps d _ hconv
  unfold convert_capture_to_diagnostic at hconv
  split at hconv
  · cases hconv
  · split at hconv
    · cases hconv
    · split at hconv
      · next h1 h2 h3 h4 =>
          obtain rfl := Option.some.inj hconv
          rw [parseU32Str_digits h1, parseU32Str_digits h2,
              parseU32Str_digits h3, parseU32Str_digits h4]
          refine ⟨rfl, ?_, ?_⟩ <;> intro hle <;> simp <;> omega
      · cases hconv

/-- C4 witness: the line `a.py:0:1:2:3: error: m` (start line 0, start column 1)
converts with range start (0,0) and end (1,2). -/
theorem C4_saturating_position_conversion_witness :
    ({ range := { start := { line := 0, character := 0 }
                  stop := { line := 1, character := 2 } }
       message := "m".data
       source := some "dmypy".data
       severity := some SeverityRank.error : Diagnostic }).range
      = { start := { line := digitsToNat "0".data - 1, character := digitsToNat "1".data - 1 }
          stop := { line := digitsToNat "2".data - 1, character := digitsToNat "3".data - 1 } } ∧
    ({ range := { start := { line := 0, character := 0 }
                  stop := { line := 1, character := 2 } }
       message := "m".data
       source := some "dmypy".data
       severity := some SeverityRank.error : Diagnostic }).range.start.line = 0 :=
  ⟨(C4_saturating_position_conversion (pathFromString "/r".data)
      { root_dir := pathFromString "/r".data, path_buf := pathFromString "a.py".data }
      ("a.py:0:1:2:3: error: m".data)
      { filename := "a.py".data, startLine := "0".data, startCol := "1".data
        endLine := "2".data, endCol := "3".data, severity := "error".data, message := "m".data }
      _ (by decide) (by rfl)).1,
   (C4_saturating_position_conversion (pathFromString "/r".data)
      { root_dir := pathFromString "/r".data, path_buf := pathFromString "a.py".data }
      ("a.py:0:1:2:3: error: m".data)
      { filename := "a.py".data, startLine := "0".data, startCol := "1".data
        endLine := "2".data, endCol := "3".data, severity := "error".data, message := "m".data }
      _ (by decide) (by rfl)).2.1 (by decide)⟩

/-- C5: a line the fixed diagnostic pattern does not match contributes no
diagnostic record (the line parser is a total function, so no input can make it
panic), and in particular a line with too few fields, a non-numeric position
field, or no colons at all is rejected by the pattern. -/
theorem C5_malformed_lines_skipped :
    (∀ root target line, regexCaptures line = none →
      lineToDiag root target line = none) ∧
    regexCaptures ("file.py:1:2: error: x".data) = none ∧
    regexCaptures ("file.py:a:2:3:4: error: x".data) = none ∧
    regexCaptures ("file.py 1 2 3 4 error x".data) = none := by
  refine ⟨?_, by decide, by decide, by decide⟩
  intro root target line h
  simp [lineToDiag, h]

/-- C5 witness: a daemon summary banner yields no diagnostic. -/
theorem C5_malformed_lines_skipped_witness :
    lineToDiag (pathFromString "/r".data)
      { root_dir := pathFromString "/r".data, path_buf := pathFromString "a.py".data }
      ("Success: no issues found in 1 source file".data) = none :=
  C5_malformed_lines_skipped.1 _ _ _ (by decide)

/-- C6: for every daemon filename string that is absolute and rooted under the
root directory, reconciling it agrees with reconciling the file URI of the same
path joined to the root: `from_filename root s = from_uri root (uri_for (root.join s))`. -/
theorem C6_filename_uri_reconciliation_agree :
    ∀ (root : RustPath) (s : Str),
      (pathFromString s).absolute = true →
      (stripPrefixPath (pathFromString s) root).isSome = true →
      RelPathBuf.from_filename root s =
        RelPathBuf.from_uri root (uriFor (root.join (pathFromString s))) := by
  intro root s habs hsome
  obtain ⟨rel, hrel⟩ := Option.isSome_iff_exists.1 hsome
  simp [RelPathBuf.from_filename, RelPathBuf.from_uri, RustPath.join, uriFor,
    Url.toFilePath?, habs, hrel]

/-- C6 witness: `/root/pkg/mod.py` under root `/root` reconciles identically by
both routes. -/
theorem C6_filename_uri_reconciliation_agree_witness :
    RelPathBuf.from_filename (pathFromString "/root".data) ("/root/pkg/mod.py".data) =
      RelPathBuf.from_uri (pathFromString "/root".data)
        (uriFor ((pathFromString "/root".data).join (pathFromString "/root/pkg/mod.py".data))) :=
  C6_filename_uri_reconciliation_agree _ _ (by decide) (by decide)

theorem lookup_eq_none_of_key_notMem {m : VMap} {doc : Url}
    (h : doc ∉ m.map Prod.fst) : m.lookup doc = none := by
  induction m with
  | nil => rfl
  | cons p t ih =>
    obtain ⟨k, w⟩ := p
    rw [List.map_cons] at h
    simp only [List.mem_cons, not_or] at h
    have hb : (doc == k) = false := beq_eq_false_iff_ne.2 h.1
    simp [List.lookup, hb, ih h.2]

/-- C7: recording a version for a document and then reading the latest version
returns exactly the recorded value (recording unconditionally overwrites any
prior entry), while reading the latest version for a document that was never
recorded returns the default 0. -/
theorem C7_version_table_record_latest :
    (∀ (m : VMap) (doc : Url) (v : Int), latest (record m doc v) doc = v) ∧
    (∀ (m : VMap) (doc : Url), doc ∉ m.map Prod.fst → latest m doc = 0) := by
  constructor
  · intro m doc v
    simp [latest, record, List.lookup]
  · intro m doc h
    simp [latest, lookup_eq_none_of_key_notMem h]

/-- C7 witness: record version 5 for a document, read it back; an unrecorded
document reads as version 0. -/
theorem C7_version_table_record_latest_witness :
    latest (record [] { isFile := true, path := pathFromString "/r/a.py".data } 5)
      { isFile := true, path := pathFromString "/r/a.py".data } = 5 ∧
    latest [] { isFile := true, path := pathFromString "/r/b.py".data } = 0 :=
  ⟨C7_version_table_record_latest.1 [] _ 5,
   C7_version_table_record_latest.2 [] _ (by decide)⟩

theorem checkFileEvents_shape :
    ∀ root cfg uri v spawnResult,
      checkFileEvents root cfg uri v spawnResult = [] ∨
      checkFileEvents root cfg uri v spawnResult = [.daemonCheck] ∨
      checkFileEvents root cfg uri v spawnResult = [.daemonCheck, .publish v] := by
  intro root cfg uri v s
  unfold checkFileEvents
  split
  · left; rfl
  · split
    · left; rfl
    · split
      · left; rfl
      · split
        · right; left; rfl
        · split
          · right; left; rfl
          · right; right; rfl

/-- The concrete save event used to settle C8: a known document at version 5 and a
daemon output that parses, producing the trace read-version, daemon check,
publish. -/
def evC8 : List Ev :=
  didSaveEvents (pathFromString "/r".data) { command_tokens := ["dmypy".data] }
    [({ isFile := true, path := pathFromString "/r/a.py".data }, 5)]
    { isFile := true, path := pathFromString "/r/a.py".data }
    (.ok (utf8Encode "a.py:1:1:1:2: error: X".data))

/-- C8 counterexample: on a concrete save-triggered check that publishes, the
version is NOT read after the daemon check call — the source's `did_save` reads
the version table before invoking `check_file`, so the trace is read-version,
daemon-check, publish, refuting the claimed ordering. -/
theorem C8_counterexample_read_is_before_check :
    ¬ readAfterCheckBeforePublish evC8 := by
  intro h
  obtain ⟨i, j, hi, hj, hij, hjk⟩ := h 2 5 (by rfl)
  have hj1 : j = 1 := by omega
  subst hj1
  have hd : evC8.get? 1 = some .daemonCheck := by rfl
  rw [hd] at hj
  exact Ev.noConfusion (Option.some.inj hj)

/-- C8 amended: whenever a save-triggered check publishes, the version tagging the
publication is the one read from the version table at the start of `did_save`,
before the daemon check call — the trace always begins with that read, and the
daemon check immediately precedes the publication. -/
theorem C8_version_read_before_check :
    ∀ root cfg versions uri spawnResult k v,
      (didSaveEvents root cfg versions uri spawnResult).get? k = some (.publish v) →
      v = latest versions uri ∧
      (didSaveEvents root cfg versions uri spawnResult).get? 0 =
        some (.readVersion (latest versions uri)) ∧
      1 ≤ k ∧
      (didSaveEvents root cfg versions uri spawnResult).get? (k - 1) =
        some .daemonCheck := by
  intro root cfg versions uri s k v hk
  rcases checkFileEvents_shape root cfg uri (latest versions uri) s with h | h | h <;>
    unfold didSaveEvents at hk ⊢ <;> rw [h] at hk ⊢
  · match k with
    | 0 => cases hk
    | k + 1 => simp [List.get?] at hk
  · match k with
    | 0 => cases hk
    | 1 => cases hk
    | k + 2 => simp [List.get?] at hk
  · match k with
    | 0 => cases hk
    | 1 => cases hk
    | 2 =>
      have hv : latest versions uri = v := Ev.publish.inj (Option.some.inj hk)
      exact ⟨hv.symm, rfl, by omega, rfl⟩
    | k + 3 => simp [List.get?] at hk

/-- C8 witness: on the concrete publishing trace, the published version 5 is the
table's version, read first, with the daemon check in between. -/
theorem C8_version_read_before_check_witness :
    5 = latest [({ isFile := true, path := pathFromString "/r/a.py".data }, 5)]
          { isFile := true, path := pathFromString "/r/a.py".data } ∧
    evC8.get? 0 = some (.readVersion
      (latest [({ isFile := true, path := pathFromString "/r/a.py".data }, 5)]
        { isFile := true, path := pathFromString "/r/a.py".data })) ∧
    1 ≤ 2 ∧
    evC8.get? (2 - 1) = some .daemonCheck :=
  C8_version_read_before_check _ _ _ _ _ 2 5 (by rfl)

/-- C9 counterexample: with a configured command and a status probe whose stdout
is the invalid UTF-8 byte `0xFF` (non-matching output), the probe neither returns
`false` nor `true` — the source's `std::str::from_utf8(..).unwrap()` panics
(modelled as `none`) — refuting that any non-matching output yields `false`
without an error. -/
theorem C9_counterexample_invalid_utf8_panics :
    dmypy_is_running { command_tokens := ["dmypy".data] }
      (some { success := true, stdout := [255] }) = none ∧
    dmypy_is_running { command_tokens := ["dmypy".data] }
      (some { success := true, stdout := [255] }) ≠ some (.ok false) := by
  have h : dmypy_is_running { command_tokens := ["dmypy".data] }
      (some { success := true, stdout := [255] }) = none := rfl
  refine ⟨h, ?_⟩
  rw [h]
  exact fun hc => Option.noConfusion hc

/-- C9 amended: provided a command template is configured and the probe's stdout
decodes as text, the liveness probe returns true iff the status subprocess
spawned, exited and its stdout begins with the literal banner
"Daemon is up and running"; spawn failure or non-matching (valid-text) output
yields false and is never propagated as an error.  (Invalid UTF-8 stdout instead
panics, per the counterexample.) -/
theorem C9_liveness_probe :
    ∀ (cfg : DmypylsConfig) (spawnResult : Option ProcOutput),
      cfg.command_tokens ≠ [] →
      ((dmypy_is_running cfg spawnResult = some (.ok true)) ↔
        ∃ out text, spawnResult = some out ∧ utf8Decode? out.stdout = some text ∧
          bannerData.isPrefixOf text = true) ∧
      (spawnResult = none → dmypy_is_running cfg spawnResult = some (.ok false)) ∧
      (∀ out text, spawnResult = some out → utf8Decode? out.stdout = some text →
        bannerData.isPrefixOf text = false →
        dmypy_is_running cfg spawnResult = some (.ok false)) := by
  intro cfg s hc
  have hcmd : cfg.command = .ok cfg.command_tokens := by
    simp [DmypylsConfig.command, hc]
  have hrunNone : dmypy_is_running cfg none = some (.ok false) := by
    unfold dmypy_is_running
    rw [hcmd]
  have hrunSome : ∀ out, dmypy_is_running cfg (some out) =
      (match utf8Decode? out.stdout with
       | none => none
       | some text => some (.ok (bannerData.isPrefixOf text))) := by
    intro out
    unfold dmypy_is_running
    rw [hcmd]
  refine ⟨?_, ?_, ?_⟩
  · constructor
    · intro h
      cases s with
      | none =>
        rw [hrunNone] at h
        simp at h
      | some out =>
        rw [hrunSome] at h
        cases hdec : utf8Decode? out.stdout with
        | none => rw [hdec] at h; cases h
        | some text =>
          rw [hdec] at h
          exact ⟨out, text, rfl, hdec, Except.ok.inj (Option.some.inj h)⟩
    · rintro ⟨out, text, rfl, hdec, hpre⟩
      rw [hrunSome]
      simp [hdec, hpre]
  · rintro rfl
    exact hrunNone
  · intro out text hso hdec hpre
    subst hso
    rw [hrunSome]
    simp [hdec, hpre]

/-- C9 witness: with a configured command, a spawn failure makes the probe report
"not running" rather than an error. -/
theorem C9_liveness_probe_witness :
    dmypy_is_running { command_tokens := ["dmypy".data] } none = some (.ok false) :=
  (C9_liveness_probe { command_tokens := ["dmypy".data] } none (by decide)).2.1 rfl

/-- C10 counterexample: on a concrete check of `/r/a.py` under root `/r` with a
configured command and daemon output bytes `[0xFF]` (not valid text), the check
does NOT fail with an EncodingError — it panics (`none`) at the raw-output
`log::info!`'s `from_utf8(..).unwrap()`, before `parse_diagnostics` runs — and
the panic propagates through the save handler (the session crashes rather than
logging an error and continuing), refuting the claim. -/
theorem C10_counterexample_panics_before_encoding_error :
    check_file (pathFromString "/r".data) { command_tokens := ["dmypy".data] }
      { isFile := true, path := pathFromString "/r/a.py".data } 7 (.ok [255]) = none ∧
    check_file (pathFromString "/r".data) { command_tokens := ["dmypy".data] }
      { isFile := true, path := pathFromString "/r/a.py".data } 7 (.ok [255])
      ≠ some (none, .error .encoding) ∧
    did_save (pathFromString "/r".data) { command_tokens := ["dmypy".data] } []
      { isFile := true, path := pathFromString "/r/a.py".data } (.ok [255]) = none := by
  have h : check_file (pathFromString "/r".data) { command_tokens := ["dmypy".data] }
      { isFile := true, path := pathFromString "/r/a.py".data } 7 (.ok [255]) = none := rfl
  refine ⟨h, ?_, rfl⟩
  rw [h]
  exact fun hc => Option.noConfusion hc

/-- C10 amended: for every check of a Python document under the root, with a
configured command, whose daemon output bytes are not valid text, the check
panics at the raw-output log's `from_utf8(..).unwrap()` before
`parse_diagnostics` can return an EncodingError, and no diagnostics are
published for that event — the save handler ends in the same panic with no
publication (the session crashes rather than logging the failure and
continuing). -/
theorem C10_invalid_utf8_panics_check :
    ∀ (root : RustPath) (cfg : DmypylsConfig) (versions : VMap) (uri : Url) (version : Int)
      (bytes : List Nat) (fp : RelPathBuf),
      RelPathBuf.from_uri root uri = .ok fp →
      (extension fp.path_buf).getD [] = "py".data →
      cfg.command_tokens ≠ [] →
      utf8Decode? bytes = none →
      check_file root cfg uri version (.ok bytes) = none ∧
      did_save root cfg versions uri (.ok bytes) = none := by
  intro root cfg versions uri version bytes fp hu hext hc hdec
  have hcmd : cfg.command = .ok cfg.command_tokens := by
    simp [DmypylsConfig.command, hc]
  have hcf : ∀ v : Int, check_file root cfg uri v (.ok bytes) = none := by
    intro v
    unfold check_file
    rw [hu, hcmd]
    simp [hext, hdec]
  refine ⟨hcf version, ?_⟩
  unfold did_save
  rw [hcf]
  rfl

/-- C10 witness: daemon output `[0x80]` (a stray continuation byte, not valid
text) for `/r/b.py` under root `/r` makes the check and the save handler panic
with nothing published. -/
theorem C10_invalid_utf8_panics_check_witness :
    check_file (pathFromString "/r".data) { command_tokens := ["dmypy".data] }
      { isFile := true, path := pathFromString "/r/b.py".data } 3 (.ok [128]) = none ∧
    did_save (pathFromString "/r".data) { command_tokens := ["dmypy".data] } []
      { isFile := true, path := pathFromString "/r/b.py".data } (.ok [128]) = none :=
  C10_invalid_utf8_panics_check (pathFromString "/r".data) _ [] _ 3 [128]
    { root_dir := pathFromString "/r".data, path_buf := pathFromString "b.py".data }
    (by rfl) (by decide) (by decide) (by decide)

end Dmypyls
